import Mathlib

/-
Verification of the blitztactoe room-session coordinator
(src/game/consumers.py) against its natural-language specification.

The Python handlers are shallowly embedded as pure Lean functions over an
explicit room-state record `Game`; each embedded function mirrors one
handler's control flow, statement by statement:

  * `check_winner`          — GameConsumer.check_winner
  * `handle_move`           — the move branch of GameConsumer.receive
                              (lines 453-508, including _start_new_turn)
  * `handle_rematch`        — GameConsumer._handle_rematch
  * `handle_draw_reset`     — GameConsumer._handle_draw_reset
  * `handle_disconnect`     — GameConsumer.disconnect
  * `turn_timeout_body`     — turn_timeout_task, the part after the sleep
  * `countdown_body`        — countdown_task, the part after the sleep
  * `load_game_from_redis`  — load_game_from_redis

Timer-task handles are modelled as Booleans (a handle is present or not);
timestamps are naturals passed in as `now`; persistence and broadcasting
are modelled by the returned message list.  Lock usage is modelled
separately by per-handler action traces (`Act`, below) transcribed from
the handlers' control flow.
-/

namespace Blitztactoe

/-- Player symbols, the strings "X" and "O" of the Python code. -/
inductive Sym
  | X
  | O
deriving DecidableEq, Repr

/-- Board cell: `none` is the empty string cell, `some s` the symbol `s`. -/
abbrev Cell := Option Sym

/-- Values of the `winner` field when set: a symbol, or the "draw" marker. -/
inductive WinVal
  | sym (s : Sym)
  | draw
deriving DecidableEq, Repr

/-- The expression `"O" if x == "X" else "X"` used for turn flips and
reset-turn selection in consumers.py. -/
def flipSym (s : Sym) : Sym :=
  if s = Sym.X then Sym.O else Sym.X

/-- The `ready_states` dict `{"X": bool, "O": bool}`. -/
structure ReadyStates where
  x : Bool
  o : Bool
deriving DecidableEq, Repr

/-- In-memory room state: the fields of the per-room dict stored in `GAMES`.
`timer_task` / `countdown_task` record whether a live task handle is present
(the Python value's truthiness); `turn_time` is in seconds. -/
structure Game where
  players : List Sym
  board : List Cell
  turn : Sym
  winner : Option WinVal
  timer_task : Bool
  turn_started : Option Nat
  game_started : Bool
  last_starter : Sym
  rematch_votes : List Sym
  countdown_task : Bool
  countdown_started : Option Nat
  countdown_seconds : Option Nat
  turn_time : Nat
  ready_states : ReadyStates
deriving DecidableEq, Repr

/-- Module constant TURN_TIME = 5. -/
def TURN_TIME : Nat := 5

/-- Module constant COUNTDOWN_SECONDS = 3. -/
def COUNTDOWN_SECONDS : Nat := 3

/-- The eight winning triples of GameConsumer.check_winner. -/
def wins : List (Nat × Nat × Nat) :=
  [(0, 1, 2), (3, 4, 5), (6, 7, 8),
   (0, 3, 6), (1, 4, 7), (2, 5, 8),
   (0, 4, 8), (2, 4, 6)]

/-- Cell lookup `board[i]` (boards have length 9; out-of-range reads as empty). -/
def cellAt (board : List Cell) (i : Nat) : Cell :=
  board.getD i none

/-- One iteration of the check_winner loop: the test
`board[a] and board[a] == board[b] == board[c]`, returning `board[a]` on a hit. -/
def tripleWin (board : List Cell) : Nat × Nat × Nat → Option Sym
  | (a, b, c) =>
    match cellAt board a with
    | none => none
    | some s =>
      if cellAt board b = some s ∧ cellAt board c = some s then some s else none

/-- The check_winner loop over a list of triples: first hit wins. -/
def firstWin (board : List Cell) : List (Nat × Nat × Nat) → Option Sym
  | [] => none
  | t :: ts =>
    match tripleWin board t with
    | some s => some s
    | none => firstWin board ts

/-- GameConsumer.check_winner: scan the 8 triples, return the first triple's
owner if one is fully occupied, else `none`. -/
def check_winner (board : List Cell) : Option Sym :=
  firstWin board wins

/-- Specification predicate: triple `t` is fully occupied by symbol `s`. -/
def tripleFilled (board : List Cell) (t : Nat × Nat × Nat) (s : Sym) : Prop :=
  cellAt board t.1 = some s ∧ cellAt board t.2.1 = some s ∧ cellAt board t.2.2 = some s

instance (board : List Cell) (t : Nat × Nat × Nat) (s : Sym) :
    Decidable (tripleFilled board t s) := by
  unfold tripleFilled
  infer_instance

/-- Broadcast / reply messages emitted by the handlers (the `type` field and
the payload fields each broadcast carries in consumers.py). -/
inductive Msg
  | game_over (winner : WinVal) (board : List Cell) (forfeit : Bool)
  | turn_change (board : List Cell) (turn : Sym) (turn_started : Option Nat) (turn_time : Nat)
  | turn_timeout (board : List Cell) (turn : Sym) (turn_started : Option Nat) (turn_time : Nat)
  | game_reset (board : List Cell) (turn : Sym) (turn_started : Option Nat) (turn_time : Nat)
      (countdown_started : Option Nat) (countdown_seconds : Option Nat)
  | countdown_start (countdown_started : Option Nat) (countdown_seconds : Option Nat)
  | game_start (turn : Sym) (turn_started : Option Nat) (turn_time : Nat)
  | rematch_requested (symbol : Sym)
  | player_left (symbol : Sym)
deriving DecidableEq, Repr

/-- The move branch of GameConsumer.receive (lines 453-508): the three silent
rejection guards, then board update, win/draw classification, timer handling
(_start_new_turn inlined for the continuing case) and the emitted broadcast.
The post-draw auto reset runs later under a separate lock acquisition and is
modelled separately as `handle_draw_reset`. -/
def handle_move (g : Game) (sym : Sym) (index : Nat) (now : Nat) : Game × List Msg :=
  if g.winner.isSome then (g, [])
  else if g.turn ≠ sym then (g, [])
  else if (cellAt g.board index).isSome then (g, [])
  else
    let board2 := g.board.set index (some sym)
    match check_winner board2 with
    | some w =>
      ({ g with board := board2, winner := some (WinVal.sym w), timer_task := false },
       [Msg.game_over (WinVal.sym w) board2 false])
    | none =>
      if board2.all Option.isSome then
        ({ g with board := board2, winner := some WinVal.draw, timer_task := false },
         [Msg.game_over WinVal.draw board2 false])
      else
        let turn2 := flipSym g.turn
        ({ g with board := board2, turn := turn2, turn_started := some now,
                  timer_task := true },
         [Msg.turn_change board2 turn2 (some now) g.turn_time])

/-- Vote recording of _handle_rematch:
`if self.symbol not in game["rematch_votes"]: append`. -/
def addVote (votes : List Sym) (sym : Sym) : List Sym :=
  if sym ∈ votes then votes else votes ++ [sym]

/-- GameConsumer._handle_rematch (lines 559-643): record the vote; with 2 or
more votes reset board/turn/winner, clear votes, cancel the turn timer and any
countdown task, start a fresh countdown, and broadcast game_reset then
countdown_start; otherwise broadcast rematch_requested. -/
def handle_rematch (g : Game) (sym : Sym) (now : Nat) : Game × List Msg :=
  let votes := addVote g.rematch_votes sym
  if 2 ≤ votes.length then
    let turn2 := flipSym g.last_starter
    let board2 : List Cell := List.replicate 9 none
    ({ g with board := board2, turn := turn2, last_starter := turn2,
              winner := none, rematch_votes := [], timer_task := false,
              turn_started := none, countdown_started := some now,
              countdown_seconds := some COUNTDOWN_SECONDS, countdown_task := true },
     [Msg.game_reset board2 turn2 none g.turn_time (some now) (some COUNTDOWN_SECONDS),
      Msg.countdown_start (some now) (some COUNTDOWN_SECONDS)])
  else
    ({ g with rematch_votes := votes }, [Msg.rematch_requested sym])

/-- GameConsumer._handle_draw_reset (lines 512-557): a no-op when fewer than 2
players remain; otherwise reset board/turn/winner, clear votes, cancel any
countdown task, start a fresh countdown, and broadcast game_reset then
countdown_start.  Unlike the rematch reset it leaves `turn_started` as is. -/
def handle_draw_reset (g : Game) (now : Nat) : Game × List Msg :=
  if g.players.length < 2 then (g, [])
  else
    let turn2 := flipSym g.last_starter
    let board2 : List Cell := List.replicate 9 none
    ({ g with board := board2, turn := turn2, last_starter := turn2,
              winner := none, rematch_votes := [],
              countdown_started := some now,
              countdown_seconds := some COUNTDOWN_SECONDS, countdown_task := true },
     [Msg.game_reset board2 turn2 g.turn_started g.turn_time (some now) (some COUNTDOWN_SECONDS),
      Msg.countdown_start (some now) (some COUNTDOWN_SECONDS)])

/-- GameConsumer.disconnect (lines 312-392) for a consumer seated as `sym`:
computes `was_game_active` before removing the player; when fewer than 2
players remain, runs the timer-cleanup block — which the code nests entirely
inside `if game.get("timer_task")` — then either awards a forfeit win to a
sole remaining player of an active undecided game or broadcasts player_left.
Returns `none` for the room when the last player left (the record is deleted),
otherwise the persisted room. -/
def handle_disconnect (g : Game) (sym : Sym) : Option Game × List Msg :=
  let wasActive := g.game_started && g.winner.isNone && g.board.any Option.isSome
  let players2 := g.players.erase sym
  let g1 := { g with players := players2 }
  if players2.length < 2 then
    let g2 :=
      if g1.timer_task then
        { g1 with timer_task := false, game_started := false, countdown_task := false,
                  countdown_started := none, countdown_seconds := none,
                  ready_states := ⟨false, false⟩ }
      else g1
    let res :=
      if wasActive && players2.length == 1 then
        let remaining := players2.headD Sym.X
        ({ g2 with winner := some (WinVal.sym remaining) },
         [Msg.game_over (WinVal.sym remaining) g2.board true])
      else
        (g2, [Msg.player_left sym])
    (if 0 < players2.length then some res.1 else none, res.2)
  else
    (some g1, [])

/-- The part of turn_timeout_task after the sleep (lines 125-151): a no-op when
the room is gone or a winner is set — the only guard the code has — otherwise
flip the turn, restart the turn timer, persist and broadcast turn_timeout. -/
def turn_timeout_body (g? : Option Game) (now : Nat) : Option Game × List Msg :=
  match g? with
  | none => (none, [])
  | some g =>
    if g.winner.isSome then (some g, [])
    else
      let turn2 := flipSym g.turn
      (some { g with turn := turn2, turn_started := some now, timer_task := true },
       [Msg.turn_timeout g.board turn2 (some now) g.turn_time])

/-- The part of countdown_task after the sleep (lines 163-203): under the room
lock, abort (clearing countdown fields) when the room is gone or has fewer
than 2 players; otherwise start the game, reset ready flags, start the turn
timer, persist and broadcast game_start. -/
def countdown_body (g? : Option Game) (now : Nat) : Option Game × List Msg :=
  match g? with
  | none => (none, [])
  | some g =>
    if g.players.length < 2 then
      (some { g with countdown_started := none, countdown_seconds := none,
                     countdown_task := false }, [])
    else
      (some { g with game_started := true, countdown_started := none,
                     countdown_seconds := none, countdown_task := false,
                     ready_states := ⟨false, false⟩, turn_started := some now,
                     timer_task := true },
       [Msg.game_start g.turn (some now) g.turn_time])

/-- A durable record as read back from the store: any key may be absent
(`none` also stands for a stored JSON null, which Python's `dict.get` and
`setdefault` treat the same way for the fields load touches). -/
structure StoredRecord where
  players : Option (List Sym)
  board : Option (List Cell)
  turn : Option Sym
  winner : Option WinVal
  turn_started : Option Nat
  game_started : Option Bool
  last_starter : Option Sym
  countdown_started : Option Nat
  countdown_seconds : Option Nat
  turn_time : Option Nat
  rematch_votes : Option (List Sym)
  ready_states : Option ReadyStates
deriving DecidableEq, Repr

/-- The dict produced by load_game_from_redis: fields covered by a
`setdefault` call are concrete (absent keys got defaults), the rest pass
through exactly as stored. -/
structure LoadedGame where
  players : Option (List Sym)
  board : Option (List Cell)
  turn : Option Sym
  winner : Option WinVal
  game_started : Option Bool
  last_starter : Option Sym
  timer_task : Bool
  turn_started : Option Nat
  countdown_started : Option Nat
  countdown_seconds : Option Nat
  turn_time : Nat
  rematch_votes : List Sym
  ready_states : ReadyStates
deriving DecidableEq, Repr

/-- load_game_from_redis (lines 77-100): deserialize a stored record and apply
the `setdefault` calls — `timer_task` defaults to no handle, `turn_time` to
TURN_TIME, `rematch_votes` to `[]`, `ready_states` to both-false; the
timestamp fields default to absent; other fields pass through. Deserialization
of a well-formed record never raises. -/
def load_game_from_redis (r : StoredRecord) : LoadedGame :=
  { players := r.players
    board := r.board
    turn := r.turn
    winner := r.winner
    game_started := r.game_started
    last_starter := r.last_starter
    timer_task := false
    turn_started := r.turn_started
    countdown_started := r.countdown_started
    countdown_seconds := r.countdown_seconds
    turn_time := r.turn_time.getD TURN_TIME
    rematch_votes := r.rematch_votes.getD []
    ready_states := r.ready_states.getD ⟨false, false⟩ }

/-- Atomic steps of a handler, for the lock-discipline analysis: transcribed
from each handler's control flow in consumers.py. -/
inductive Act
  | acquire
  | release
  | readState
  | mutateState
  | persistWrite
  | persistDelete
  | broadcast
  | sleepDelay
  | scheduleTask
  | cancelTask
deriving DecidableEq, Repr

/-- GameConsumer.connect (Join), lines 248-306: room lookup or creation,
seat assignment and persistence all inside `async with GAME_LOCKS[room_id]`;
the init reply is sent after release. -/
def joinTrace : List Act :=
  [Act.acquire, Act.readState, Act.mutateState, Act.persistWrite,
   Act.mutateState, Act.persistWrite, Act.release, Act.broadcast]

/-- The move branch of GameConsumer.receive, lines 419-508: reads the room
from GAMES, mutates the board/turn/winner, cancels or restarts the turn timer,
persists and broadcasts — with no lock acquisition anywhere on the path. -/
def moveTrace : List Act :=
  [Act.readState, Act.mutateState, Act.mutateState, Act.cancelTask,
   Act.scheduleTask, Act.persistWrite, Act.persistWrite, Act.broadcast]

/-- GameConsumer._handle_rematch, lines 559-643 (entered from receive, which
reads the room outside the lock): vote recording, reset, timer churn and both
persistence writes inside the lock; broadcasts after release. -/
def rematchTrace : List Act :=
  [Act.readState, Act.acquire, Act.mutateState, Act.persistWrite,
   Act.mutateState, Act.cancelTask, Act.scheduleTask, Act.persistWrite,
   Act.release, Act.broadcast, Act.broadcast]

/-- GameConsumer.handle_player_ready (SetReady), lines 664-689: everything,
broadcasts included, inside the lock. -/
def readyTrace : List Act :=
  [Act.acquire, Act.readState, Act.mutateState, Act.persistWrite, Act.broadcast,
   Act.mutateState, Act.scheduleTask, Act.persistWrite, Act.broadcast,
   Act.release]

/-- GameConsumer.disconnect, lines 312-394: seat removal, timer cleanup and
the persistence write (or delete) inside the lock; broadcasts after release. -/
def disconnectTrace : List Act :=
  [Act.acquire, Act.readState, Act.mutateState, Act.cancelTask,
   Act.persistWrite, Act.release, Act.broadcast]

/-- turn_timeout_task, lines 112-151: after the sleep it reads the room,
flips the turn, reschedules itself, persists and broadcasts without ever
touching GAME_LOCKS. -/
def turnTimeoutTrace : List Act :=
  [Act.sleepDelay, Act.readState, Act.mutateState, Act.scheduleTask,
   Act.persistWrite, Act.broadcast]

/-- countdown_task, lines 154-203: after the sleep, all state mutation and the
persistence write happen inside `async with GAME_LOCKS[room_id]`; the
broadcast follows release. -/
def countdownTrace : List Act :=
  [Act.sleepDelay, Act.acquire, Act.readState, Act.mutateState,
   Act.scheduleTask, Act.persistWrite, Act.release, Act.broadcast]

/-- GameConsumer._handle_draw_reset, lines 512-557: reset, timer churn and
persistence inside the lock; broadcasts after release. -/
def drawResetTrace : List Act :=
  [Act.acquire, Act.readState, Act.mutateState, Act.cancelTask,
   Act.scheduleTask, Act.persistWrite, Act.release, Act.broadcast, Act.broadcast]

/-- Check, tracking lock depth, that every state mutation and persistence
access in the trace happens while the lock is held. -/
def lockedFrom : Nat → List Act → Bool
  | _, [] => true
  | d, a :: rest =>
    match a with
    | Act.acquire => lockedFrom (d + 1) rest
    | Act.release => lockedFrom (d - 1) rest
    | Act.mutateState => (d != 0) && lockedFrom d rest
    | Act.persistWrite => (d != 0) && lockedFrom d rest
    | Act.persistDelete => (d != 0) && lockedFrom d rest
    | _ => lockedFrom d rest

/-- A handler serializes its mutations and persistence through the room lock
when every such action in its trace occurs at positive lock depth. -/
def mutatesUnderLock (t : List Act) : Bool :=
  lockedFrom 0 t

/-- Concrete pre-draw position: eight cells filled, no winner, X to play the
last empty cell 8, after which no triple is filled. -/
def gDraw : Game :=
  { players := [Sym.X, Sym.O]
    board := [some Sym.X, some Sym.O, some Sym.X, some Sym.X, some Sym.O,
              some Sym.O, some Sym.O, some Sym.X, none]
    turn := Sym.X
    winner := none
    timer_task := true
    turn_started := some 1
    game_started := true
    last_starter := Sym.X
    rematch_votes := []
    countdown_task := false
    countdown_started := none
    countdown_seconds := none
    turn_time := 5
    ready_states := ⟨false, false⟩ }

/-- Concrete pre-win position: eight cells filled, no winner yet, X completes
the (0,4,8) diagonal by playing the last empty cell 8. -/
def gWinning : Game :=
  { gDraw with
    board := [some Sym.X, some Sym.O, some Sym.X, some Sym.O, some Sym.X,
              some Sym.O, some Sym.O, some Sym.X, none] }

/-- Concrete mid-game position: active, undecided, one move on the board,
turn timer running, O to move. -/
def gMid : Game :=
  { players := [Sym.X, Sym.O]
    board := (List.replicate 9 (none : Cell)).set 0 (some Sym.X)
    turn := Sym.O
    winner := none
    timer_task := true
    turn_started := some 10
    game_started := true
    last_starter := Sym.X
    rematch_votes := []
    countdown_task := false
    countdown_started := none
    countdown_seconds := none
    turn_time := 5
    ready_states := ⟨false, false⟩ }

/-- Concrete finished position: X won on the top row, timer already
cancelled, no votes yet. -/
def gOver : Game :=
  { players := [Sym.X, Sym.O]
    board := [some Sym.X, some Sym.X, some Sym.X, some Sym.O, some Sym.O,
              none, none, none, none]
    turn := Sym.O
    winner := some (WinVal.sym Sym.X)
    timer_task := false
    turn_started := some 10
    game_started := true
    last_starter := Sym.X
    rematch_votes := []
    countdown_task := false
    countdown_started := none
    countdown_seconds := none
    turn_time := 5
    ready_states := ⟨false, false⟩ }

/-- Concrete pre-game countdown phase: both players ready, countdown task
running, no turn-timer task, empty board. -/
def gCountdown : Game :=
  { players := [Sym.X, Sym.O]
    board := List.replicate 9 none
    turn := Sym.X
    winner := none
    timer_task := false
    turn_started := none
    game_started := false
    last_starter := Sym.X
    rematch_votes := []
    countdown_task := true
    countdown_started := some 100
    countdown_seconds := some 3
    turn_time := 5
    ready_states := ⟨true, true⟩ }

/-- The room left behind when O disconnects from gMid: X remains, the timer
cleanup ran (a turn timer was active) and X won by forfeit. -/
def gMidAfterLeft : Game :=
  { gMid with
    players := [Sym.X]
    timer_task := false
    game_started := false
    countdown_task := false
    countdown_started := none
    countdown_seconds := none
    ready_states := ⟨false, false⟩
    winner := some (WinVal.sym Sym.X) }

/-- A durable record with every key absent. -/
def emptyRecord : StoredRecord :=
  ⟨none, none, none, none, none, none, none, none, none, none, none, none⟩

theorem tripleWin_eq_some_iff {board : List Cell} {t : Nat × Nat × Nat} {s : Sym} :
    tripleWin board t = some s ↔ tripleFilled board t s := by
  obtain ⟨a, b, c⟩ := t
  unfold tripleWin tripleFilled
  cases h : cellAt board a with
  | none => simp [h]
  | some s' =>
    simp only [h]
    split_ifs with hbc
    · simp only [Option.some.injEq]
      constructor
      · rintro rfl
        exact ⟨rfl, hbc.1, hbc.2⟩
      · rintro ⟨hs, -, -⟩
        exact hs
    · constructor
      · intro h'
        exact absurd h' (by simp)
      · rintro ⟨hs, hb, hc⟩
        simp only [Option.some.injEq] at hs
        subst hs
        exact absurd ⟨hb, hc⟩ hbc

theorem firstWin_eq_some {board : List Cell} {ts : List (Nat × Nat × Nat)} {s : Sym}
    (h : firstWin board ts = some s) : ∃ t ∈ ts, tripleWin board t = some s := by
  induction ts with
  | nil => simp [firstWin] at h
  | cons t ts ih =>
    rw [firstWin] at h
    cases hw : tripleWin board t with
    | some s' =>
      rw [hw] at h
      simp only [Option.some.injEq] at h
      exact ⟨t, by simp, by rw [hw, h]⟩
    | none =>
      rw [hw] at h
      obtain ⟨t', hmem, ht'⟩ := ih h
      exact ⟨t', by simp [hmem], ht'⟩

theorem firstWin_isSome_of_mem {board : List Cell} {ts : List (Nat × Nat × Nat)}
    {t : Nat × Nat × Nat} {s : Sym} (hmem : t ∈ ts) (h : tripleWin board t = some s) :
    (firstWin board ts).isSome := by
  induction ts with
  | nil => simp at hmem
  | cons t' ts ih =>
    rw [firstWin]
    cases hw : tripleWin board t' with
    | some s' => simp
    | none =>
      rcases List.mem_cons.mp hmem with rfl | hmem'
      · rw [hw] at h
        simp at h
      · exact ih hmem'

/-- C1: for every board, check_winner returns a symbol exactly when one of the
8 fixed triples is fully occupied (and the returned symbol owns such a
triple), returning none otherwise; and an accepted move that fills the board
while check_winner finds no triple is classified as a draw (winner set to the
draw marker). -/
theorem c1_check_winner_iff_triple :
    (∀ board : List Cell,
      (∀ s, check_winner board = some s → ∃ t ∈ wins, tripleFilled board t s) ∧
      ((check_winner board).isSome ↔ ∃ t ∈ wins, ∃ s, tripleFilled board t s)) ∧
    (∀ (g : Game) (sym : Sym) (index now : Nat),
      g.winner = none → g.turn = sym → cellAt g.board index = none →
      check_winner (g.board.set index (some sym)) = none →
      (g.board.set index (some sym)).all Option.isSome = true →
      (handle_move g sym index now).1.winner = some WinVal.draw) := by
  constructor
  · intro board
    constructor
    · intro s h
      obtain ⟨t, hmem, hw⟩ := firstWin_eq_some h
      exact ⟨t, hmem, tripleWin_eq_some_iff.mp hw⟩
    · constructor
      · intro h
        obtain ⟨s, hs⟩ := Option.isSome_iff_exists.mp h
        obtain ⟨t, hmem, hw⟩ := firstWin_eq_some hs
        exact ⟨t, hmem, s, tripleWin_eq_some_iff.mp hw⟩
      · rintro ⟨t, hmem, s, hf⟩
        exact firstWin_isSome_of_mem hmem (tripleWin_eq_some_iff.mpr hf)
  · intro g sym index now hw ht hc hwin hfull
    simp [handle_move, hw, ht, hc, hwin, hfull]

/-- Witness for C1: the draw clause applied at the concrete position. -/
theorem c1_witness :
    (handle_move gDraw Sym.X 8 42).1.winner = some WinVal.draw :=
  c1_check_winner_iff_triple.2 gDraw Sym.X 8 42 rfl rfl rfl (by decide) (by decide)

/-- C2 counterexample: contrary to the claim that every room operation holds
the room lock for its full duration including the persistence write, the move
branch of receive and the turn-timeout callback mutate room state and persist
it with no lock acquisition at all. -/
theorem c2_counterexample :
    mutatesUnderLock moveTrace = false ∧
    mutatesUnderLock turnTimeoutTrace = false := by decide

/-- C2 amended: Join, RequestRematch, SetReady, Disconnect, the countdown
callback and the draw auto-reset each hold the room lock across all their
state mutations and persistence writes, but the Move handler and the
turn-timeout callback perform theirs without acquiring the lock. -/
theorem c2_amended_lock_discipline :
    mutatesUnderLock joinTrace = true ∧
    mutatesUnderLock rematchTrace = true ∧
    mutatesUnderLock readyTrace = true ∧
    mutatesUnderLock disconnectTrace = true ∧
    mutatesUnderLock countdownTrace = true ∧
    mutatesUnderLock drawResetTrace = true ∧
    mutatesUnderLock moveTrace = false ∧
    mutatesUnderLock turnTimeoutTrace = false := by decide

/-- C3 counterexample: a rematch reset cancels the running turn timer, yet a
turn-timeout firing that had already passed its sleep and then runs on the
post-reset state is not a no-op — it flips the turn and broadcasts, because
the body's only guard is the winner check, not a generation comparison. -/
theorem c3_counterexample :
    ((handle_rematch { gMid with rematch_votes := [Sym.X] } Sym.O 50).1.timer_task
       = false) ∧
    turn_timeout_body
        (some (handle_rematch { gMid with rematch_votes := [Sym.X] } Sym.O 50).1) 60 ≠
      (some (handle_rematch { gMid with rematch_votes := [Sym.X] } Sym.O 50).1, []) := by
  decide

/-- C3 amended: the timers carry no generation counter.  A timer cancelled
during its sleep never runs its body, but a turn-timeout body that already
passed the sleep is suppressed only when the room is gone or a winner is set —
otherwise it flips the turn, restarts the timer and broadcasts, even when its
task was cancelled after the sleep; a countdown body is suppressed (clearing
the countdown fields) only when the room is gone or has fewer than 2
players. -/
theorem c3_amended_no_generation :
    (∀ now, turn_timeout_body none now = (none, [])) ∧
    (∀ (g : Game) (now : Nat), g.winner.isSome = true →
      turn_timeout_body (some g) now = (some g, [])) ∧
    (∀ (g : Game) (now : Nat), g.winner = none →
      turn_timeout_body (some g) now =
        (some { g with turn := flipSym g.turn, turn_started := some now,
                       timer_task := true },
         [Msg.turn_timeout g.board (flipSym g.turn) (some now) g.turn_time])) ∧
    (∀ now, countdown_body none now = (none, [])) ∧
    (∀ (g : Game) (now : Nat), g.players.length < 2 →
      countdown_body (some g) now =
        (some { g with countdown_started := none, countdown_seconds := none,
                       countdown_task := false }, [])) := by
  refine ⟨fun now => rfl, ?_, ?_, fun now => rfl, ?_⟩
  · intro g now h
    simp [turn_timeout_body, h]
  · intro g now h
    simp [turn_timeout_body, h]
  · intro g now h
    simp [countdown_body, h]

/-- Witness for C3 (amended): a fired turn timeout on a decided game is a
no-op. -/
theorem c3_witness :
    turn_timeout_body (some gOver) 7 = (some gOver, []) :=
  c3_amended_no_generation.2.1 gOver 7 rfl

/-- C4: a Move with a valid index is silently rejected — empty broadcast list
and the room state, timers included, returned unchanged — whenever a winner is
already set, it is not the mover's turn, or the target cell is occupied. -/
theorem c4_illegal_move_silently_rejected (g : Game) (sym : Sym) (index now : Nat)
    (hidx : index < 9)
    (h : g.winner.isSome = true ∨ g.turn ≠ sym ∨ (cellAt g.board index).isSome = true) :
    handle_move g sym index now = (g, []) := by
  by_cases h1 : g.winner.isSome
  · simp [handle_move, h1]
  · by_cases h2 : g.turn ≠ sym
    · simp [handle_move, h1, h2]
    · by_cases h3 : (cellAt g.board index).isSome
      · simp [handle_move, h1, h2, h3]
      · rcases h with h | h | h
        · exact absurd h h1
        · exact absurd h h2
        · exact absurd h h3

/-- Witness for C4: O attempting to move on X's turn changes nothing and
broadcasts nothing. -/
theorem c4_witness :
    handle_move gDraw Sym.O 8 7 = (gDraw, []) :=
  c4_illegal_move_silently_rejected gDraw Sym.O 8 7 (by decide)
    (Or.inr (Or.inl (by decide)))

/-- C5 counterexample: with no winner set (mid-game), a first rematch vote
leaves board/turn/winner alone, but the second vote resets the board anyway —
the handler never requires a decisive game over. -/
theorem c5_counterexample :
    gMid.winner = none ∧
    (handle_rematch gMid Sym.X 20).1.winner = none ∧
    (handle_rematch (handle_rematch gMid Sym.X 20).1 Sym.O 21).1.board ≠
      (handle_rematch gMid Sym.X 20).1.board := by decide

/-- C5 amended: a rematch vote is accepted in any state, with no decisive-win
precondition.  While the vote total stays below 2, only rematchVotes changes
and rematch_requested is broadcast; once the total reaches 2 — whatever the
winner field holds — the board becomes all-empty, winner and votes are
cleared, turn becomes the opposite of the previous lastStarter, a countdown
starts, and game_reset then countdown_start are broadcast.  After a decisive
win, Moves stay rejected until such a reset clears the winner. -/
theorem c5_amended_rematch :
    (∀ (g : Game) (sym : Sym) (now : Nat),
      (addVote g.rematch_votes sym).length < 2 →
      handle_rematch g sym now =
        ({ g with rematch_votes := addVote g.rematch_votes sym },
         [Msg.rematch_requested sym])) ∧
    (∀ (g : Game) (sym : Sym) (now : Nat),
      2 ≤ (addVote g.rematch_votes sym).length →
      handle_rematch g sym now =
        ({ g with board := List.replicate 9 none, turn := flipSym g.last_starter,
                  last_starter := flipSym g.last_starter, winner := none,
                  rematch_votes := [], timer_task := false, turn_started := none,
                  countdown_started := some now,
                  countdown_seconds := some COUNTDOWN_SECONDS,
                  countdown_task := true },
         [Msg.game_reset (List.replicate 9 none) (flipSym g.last_starter) none
            g.turn_time (some now) (some COUNTDOWN_SECONDS),
          Msg.countdown_start (some now) (some COUNTDOWN_SECONDS)])) ∧
    (∀ (g : Game) (sym : Sym) (index now : Nat) (w : WinVal), g.winner = some w →
      handle_move g sym index now = (g, [])) := by
  refine ⟨?_, ?_, ?_⟩
  · intro g sym now h
    rw [handle_rematch, if_neg (by omega)]
  · intro g sym now h
    rw [handle_rematch, if_pos h]
  · intro g sym index now w h
    simp [handle_move, h]

/-- Witness for C5 (amended): a lone vote after a decisive win only records
the vote and prompts the opponent. -/
theorem c5_witness :
    (handle_rematch gOver Sym.X 30).2 = [Msg.rematch_requested Sym.X] := by
  rw [c5_amended_rematch.1 gOver Sym.X 30 (by decide)]

/-- C6: a disconnect that leaves exactly one seated player awards that player
a forfeit win (game_over with forfeit) exactly when, at the moment of
disconnect, the game had started, no winner was set and at least one cell was
occupied; otherwise it broadcasts player_left only and assigns no winner. -/
theorem c6_forfeit_iff_active (g : Game) (sym : Sym)
    (h1 : (g.players.erase sym).length = 1) :
    ((g.game_started && g.winner.isNone && g.board.any Option.isSome) = true →
      (handle_disconnect g sym).2 =
        [Msg.game_over (WinVal.sym ((g.players.erase sym).headD Sym.X)) g.board true] ∧
      ∃ g', (handle_disconnect g sym).1 = some g' ∧
        g'.winner = some (WinVal.sym ((g.players.erase sym).headD Sym.X))) ∧
    ((g.game_started && g.winner.isNone && g.board.any Option.isSome) = false →
      (handle_disconnect g sym).2 = [Msg.player_left sym] ∧
      ∃ g', (handle_disconnect g sym).1 = some g' ∧ g'.winner = g.winner) := by
  constructor
  · intro hact
    cases htt : g.timer_task <;>
      simp [handle_disconnect, h1, hact, htt]
  · intro hact
    cases htt : g.timer_task <;>
      simp [handle_disconnect, h1, hact, htt]

/-- Witness for C6: O leaves the active undecided game gMid; X wins by
forfeit. -/
theorem c6_witness :
    (handle_disconnect gMid Sym.O).2 =
      [Msg.game_over (WinVal.sym Sym.X) gMid.board true] :=
  ((c6_forfeit_iff_active gMid Sym.O (by decide)).1 (by decide)).1

/-- C7 counterexample: a disconnect during the pre-game countdown (player 2
leaves while only the countdown task runs, no turn-timer task) cancels
nothing: the countdown task keeps its handle, the countdown fields stay set
and the ready flags stay true, contrary to the claimed unconditional
cleanup. -/
theorem c7_counterexample :
    (handle_disconnect gCountdown Sym.X).1.map Game.countdown_task ≠ some false ∧
    (handle_disconnect gCountdown Sym.X).1.map Game.countdown_started ≠ some none ∧
    (handle_disconnect gCountdown Sym.X).1.map Game.ready_states ≠
      some ⟨false, false⟩ := by decide

/-- C7 amended: after a disconnect leaving fewer than 2 players, the cleanup
(cancel both timer tasks, clear countdown fields, reset readyStates, force
gameStarted false) runs only when a turn-timer task was active; when it was
not, the countdown task, countdown fields, readyStates and gameStarted are all
left exactly as they were. -/
theorem c7_amended_cleanup (g : Game) (sym : Sym)
    (h : (g.players.erase sym).length < 2) :
    ∀ g', (handle_disconnect g sym).1 = some g' →
      (g.timer_task = true →
        g'.timer_task = false ∧ g'.countdown_task = false ∧
        g'.countdown_started = none ∧ g'.countdown_seconds = none ∧
        g'.ready_states = ⟨false, false⟩ ∧ g'.game_started = false) ∧
      (g.timer_task = false →
        g'.timer_task = false ∧ g'.countdown_task = g.countdown_task ∧
        g'.countdown_started = g.countdown_started ∧
        g'.countdown_seconds = g.countdown_seconds ∧
        g'.ready_states = g.ready_states ∧
        g'.game_started = g.game_started) := by
  intro g' hg'
  by_cases hlen : 0 < (g.players.erase sym).length
  · cases htt : g.timer_task <;>
      cases hwa : (g.game_started && g.winner.isNone && g.board.any Option.isSome)
          && ((g.players.erase sym).length == 1) <;>
        simp [handle_disconnect, h, htt, hwa, hlen] at hg' <;>
          simp [htt, ← hg']
  · simp [handle_disconnect, h, Nat.not_lt.mp hlen,
      Nat.le_zero.mp (Nat.not_lt.mp hlen)] at hg'

/-- Witness for C7 (amended): O leaving gMid (turn timer active) triggers the
full cleanup, e.g. the countdown-start field is cleared in the resulting
room. -/
theorem c7_witness :
    gMidAfterLeft.countdown_started = none :=
  ((c7_amended_cleanup gMid Sym.O (by decide) gMidAfterLeft (by decide)).1 rfl).2.2.1

/-- C8 counterexample: starting from the finished game gOver, X votes for a
rematch and then disconnects; the persisted room keeps X's vote while X is no
longer seated, so rematchVotes is not a subset of players. -/
theorem c8_counterexample :
    (handle_disconnect (handle_rematch gOver Sym.X 30).1 Sym.X).1.map
        Game.rematch_votes = some [Sym.X] ∧
    (handle_disconnect (handle_rematch gOver Sym.X 30).1 Sym.X).1.map
        Game.players = some [Sym.O] := by decide

/-- C8 amended: rematchVotes is cleared by both board resets (the 2-vote
rematch reset and the draw auto-reset), but Disconnect leaves rematchVotes
untouched, so a departed player's vote can linger and rematchVotes ⊆ players
is not an invariant of reachable states. -/
theorem c8_amended_votes :
    (∀ (g : Game) (sym : Sym) (now : Nat),
      2 ≤ (addVote g.rematch_votes sym).length →
      (handle_rematch g sym now).1.rematch_votes = []) ∧
    (∀ (g : Game) (now : Nat), 2 ≤ g.players.length →
      (handle_draw_reset g now).1.rematch_votes = []) ∧
    (∀ (g : Game) (sym : Sym) (g' : Game), (handle_disconnect g sym).1 = some g' →
      g'.rematch_votes = g.rematch_votes) := by
  refine ⟨?_, ?_, ?_⟩
  · intro g sym now h
    rw [handle_rematch, if_pos h]
  · intro g now h
    rw [handle_draw_reset, if_neg (by omega)]
  · intro g sym g' hg'
    by_cases h : (g.players.erase sym).length < 2
    · by_cases hlen : 0 < (g.players.erase sym).length
      · cases htt : g.timer_task <;>
          cases hwa : (g.game_started && g.winner.isNone && g.board.any Option.isSome)
              && ((g.players.erase sym).length == 1) <;>
            simp [handle_disconnect, h, htt, hwa, hlen] at hg' <;>
              simp [← hg']
      · simp [handle_disconnect, h, Nat.not_lt.mp hlen,
          Nat.le_zero.mp (Nat.not_lt.mp hlen)] at hg'
    · simp [handle_disconnect, h] at hg'
      simp [← hg']

/-- Witness for C8 (amended): the second vote on gOver resets the room and
clears the vote list. -/
theorem c8_witness :
    (handle_rematch { gOver with rematch_votes := [Sym.O] } Sym.X 40).1.rematch_votes
      = [] :=
  c8_amended_votes.1 { gOver with rematch_votes := [Sym.O] } Sym.X 40 (by decide)

/-- C9: loading a durable record populates defaults for the absent fields the
loader covers and never fails; in particular a record missing readyStates
loads with readyStates equal to both-false (and a missing vote list, turn
time or task handle default to empty, TURN_TIME and no handle). -/
theorem c9_load_defaults (r : StoredRecord) (h : r.ready_states = none) :
    (load_game_from_redis r).ready_states = ⟨false, false⟩ ∧
    (r.rematch_votes = none → (load_game_from_redis r).rematch_votes = []) ∧
    (r.turn_time = none → (load_game_from_redis r).turn_time = TURN_TIME) ∧
    (load_game_from_redis r).timer_task = false := by
  refine ⟨?_, ?_, ?_, rfl⟩
  · simp [load_game_from_redis, h]
  · intro hv
    simp [load_game_from_redis, hv]
  · intro ht
    simp [load_game_from_redis, ht]

/-- Witness for C9: loading the all-absent record yields both-false ready
states. -/
theorem c9_witness :
    (load_game_from_redis emptyRecord).ready_states = ⟨false, false⟩ :=
  (c9_load_defaults emptyRecord rfl).1

/-- C10: win detection takes precedence over the draw check — an accepted move
that completes a winning triple (even one that also fills the last empty
cell) yields game_over with that symbol as winner, never a draw. -/
theorem c10_win_precedes_draw (g : Game) (sym : Sym) (index now : Nat) (w : Sym)
    (hw : g.winner = none) (ht : g.turn = sym) (hc : cellAt g.board index = none)
    (hwin : check_winner (g.board.set index (some sym)) = some w)
    (hfull : (g.board.set index (some sym)).all Option.isSome = true) :
    (handle_move g sym index now).1.winner = some (WinVal.sym w) ∧
    (handle_move g sym index now).2 =
      [Msg.game_over (WinVal.sym w) (g.board.set index (some sym)) false] := by
  constructor <;> simp [handle_move, hw, ht, hc, hwin]

/-- Witness for C10: X completes the main diagonal with the board-filling
move and wins rather than drawing. -/
theorem c10_witness :
    (handle_move gWinning Sym.X 8 42).1.winner = some (WinVal.sym Sym.X) :=
  (c10_win_precedes_draw gWinning Sym.X 8 42 Sym.X rfl rfl rfl (by decide)
    (by decide)).1

end Blitztactoe
